import Mathlib

/-!
Verification of the CueBeam playback orchestrator and trigger dispatcher.

The repository carries two live implementations of `PlaybackManager`:
the packaged one at `src/src/cuebeam/playback.py` (namespace `Pkg` below)
and the root-level one at `src/playback.py` (namespace `Flat` below).
Both are embedded faithfully.  Timestamps are modelled as rationals
(the Python code only ever compares and subtracts them), the persisted
`current.m3u` queue as a list of strings, and the mpv engine as the
portion of its state the code drives: its playlist, the requested play
index, the reported playing path, the loop flag and the pause flag.
The nondeterminism of `random.choice` is modelled by passing an explicit
choice index into `randomFile`, and the wall clock by passing `now`
values explicitly.
-/

namespace CueBeam

/-- The slice of mpv engine state that the orchestrator commands:
`playlist` is the internal playlist (driven by `playlist-clear` and
`loadfile ... append-play`), `playIndex` the last index requested via
`playlist-play-index`, `path` the currently playing path the engine
reports, `loopPlaylist` the value of the `loop-playlist` option and
`paused` the pause flag. -/
structure MpvState where
  playlist : List String
  playIndex : Nat
  path : String
  loopPlaylist : String
  paused : Bool
deriving Repr, DecidableEq

/-- Combined state of a `PlaybackManager`: the `_state` dictionary
fields, the persisted `current.m3u` contents (`m3u`) and the engine. -/
structure Sys where
  lastEventTs : ℚ
  lastRandomInjectedTs : ℚ
  inRandomMode : Bool
  currentPath : String
  isPaused : Bool
  m3u : List String
  mpv : MpvState
deriving Repr, DecidableEq

/-- Contents of the three media directories (the file paths their
`iterdir` would list, restricted to plain files). -/
structure Dirs where
  idleFiles : List String
  eventFiles : List String
  randomFiles : List String
deriving Repr, DecidableEq

/-- One draw of randomness: the choice indices consumed by the
`_random_file` calls on the idle, events and random directories. -/
structure Rand where
  idleChoice : Nat
  eventChoice : Nat
  randomChoice : Nat
deriving Repr, DecidableEq

/-- The directory path strings that `current_path` is tested against
(`str(IDLE_DIR)` and `str(RANDOM_DIR)`). -/
structure Paths where
  idleDir : String
  randomDir : String
deriving Repr, DecidableEq

/-- `_random_file`: `random.choice(vids) if vids else None`.  The
random draw is made explicit as an index reduced modulo the length, so
the result is `none` exactly when the directory is empty and otherwise
some listed file. -/
def randomFile (vids : List String) (choice : Nat) : Option String :=
  if vids.isEmpty then none else vids.get? (choice % vids.length)

/-- A fresh manager state: the `_state` dictionary defaults, an empty
persisted queue and an engine that has not reported any path. -/
def initSys : Sys :=
  { lastEventTs := 0
    lastRandomInjectedTs := 0
    inRandomMode := false
    currentPath := ""
    isPaused := false
    m3u := []
    mpv := { playlist := [], playIndex := 0, path := "", loopPlaylist := "", paused := false } }

/-- Python `str(val) if val else ""`: the reported path string, empty
when no value was reported. -/
def optStr : Option String → String
  | none => ""
  | some v => v

/-- Python `s.startswith(p)`: the character sequence of `p` is a
prefix of the character sequence of `s`. -/
def strStartsWith (s p : String) : Bool := p.data.isPrefixOf s.data

/-- `_rebuild_mpv_playlist(items)`: reads the engine path, clears the
engine playlist, appends every item, then requests the index of the
previously playing item when it is a non-empty string still listed,
else index 0. -/
def rebuildMpvPlaylist (items : List String) (s : Sys) : Sys :=
  let cur := s.mpv.path
  let idx := if cur ≠ "" ∧ cur ∈ items then items.indexOf cur else 0
  { s with mpv := { s.mpv with playlist := items, playIndex := idx } }

/-- The body of the `path` property observer installed by
`_install_mpv_hooks` (identical in both implementations): records the
reported path into `current_path`, sets `in_random_mode` when the path
is under the random directory, clears it when under the idle
directory, and otherwise leaves the flag alone. -/
def onEnginePathChanged (p : Paths) (val : Option String) (s : Sys) : Sys :=
  let pathStr := optStr val
  let s1 := { s with currentPath := pathStr }
  if strStartsWith pathStr p.randomDir then { s1 with inRandomMode := true }
  else if strStartsWith pathStr p.idleDir then { s1 with inRandomMode := false }
  else s1

namespace Pkg

/-- `PlaybackManager.start` of `src/src/cuebeam/playback.py`: pick a
random idle file; when the idle directory is empty only a warning is
logged and the state is untouched; otherwise clear the playlist (engine
and persisted), load the idle clip, persist the one-item queue, enable
infinite playlist looping and unpause the engine. -/
def start (dirs : Dirs) (rnd : Rand) (s : Sys) : Sys :=
  match randomFile dirs.idleFiles rnd.idleChoice with
  | none => s
  | some idle =>
    let s1 := { s with mpv := { s.mpv with playlist := [] }, m3u := [] }
    let s2 := { s1 with mpv := { s1.mpv with playlist := s1.mpv.playlist ++ [idle] } }
    let s3 := { s2 with m3u := [idle] }
    let s4 := { s3 with mpv := { s3.mpv with loopPlaylist := "inf" } }
    { s4 with mpv := { s4.mpv with paused := false } }

/-- `PlaybackManager.trigger_event` of `src/src/cuebeam/playback.py`:
always records `last_event_ts = now`; returns false when in random
mode or when the events directory is empty; otherwise builds the new
queue `[event]` plus a freshly selected idle file when one exists,
persists it, replaces the engine playlist with it, plays index 0,
disables looping, resets `in_random_mode` to false and returns true. -/
def triggerEvent (dirs : Dirs) (rnd : Rand) (now : ℚ) (s : Sys) : Bool × Sys :=
  let s0 := { s with lastEventTs := now }
  if s0.inRandomMode then (false, s0)
  else
    match randomFile dirs.eventFiles rnd.eventChoice with
    | none => (false, s0)
    | some ev =>
      let idle := randomFile dirs.idleFiles rnd.idleChoice
      let newlst := ev :: idle.toList
      let s1 := { s0 with m3u := newlst }
      let s2 := { s1 with mpv :=
        { s1.mpv with playlist := newlst, playIndex := 0, loopPlaylist := "no" } }
      (true, { s2 with inRandomMode := false })

/-- `PlaybackManager.trigger_random` of `src/src/cuebeam/playback.py`:
returns false when the random directory is empty or the persisted
queue is empty; otherwise builds `[persisted head, random]` plus a
fresh idle file when one exists, persists it, rebuilds the engine
playlist, disables looping and records `last_random_injected_ts`. -/
def triggerRandom (dirs : Dirs) (rnd : Rand) (now : ℚ) (s : Sys) : Bool × Sys :=
  match randomFile dirs.randomFiles rnd.randomChoice with
  | none => (false, s)
  | some r =>
    match s.m3u with
    | [] => (false, s)
    | h0 :: _ =>
      let idle := randomFile dirs.idleFiles rnd.idleChoice
      let newlst := h0 :: r :: idle.toList
      let s1 := rebuildMpvPlaylist newlst { s with m3u := newlst }
      let s2 := { s1 with mpv := { s1.mpv with loopPlaylist := "no" } }
      (true, { s2 with lastRandomInjectedTs := now })

/-- One pass of the body of `_idle_monitor_loop` in
`src/src/cuebeam/playback.py` after the one-second sleep: when nothing
is playing, call `start` and continue; skip when in random mode; when
the current path is under the idle directory and both time guards pass,
invoke `trigger_random`.  The two wall-clock reads of the tick are the
explicit `now1` and `now2`; the returned boolean records whether
`trigger_random` was invoked. -/
def idleTick (dirs : Dirs) (rnd : Rand) (p : Paths) (waitS : Int)
    (now1 now2 : ℚ) (s : Sys) : Sys × Bool :=
  let cur := s.currentPath
  if cur = "" then (start dirs rnd s, false)
  else if s.inRandomMode then (s, false)
  else if strStartsWith cur p.idleDir then
    if (waitS : ℚ) ≤ now1 - s.lastEventTs then
      if ((max 5 (Int.fdiv waitS 2) : Int) : ℚ) ≤ now2 - s.lastRandomInjectedTs then
        ((triggerRandom dirs rnd now2 s).2, true)
      else (s, false)
    else (s, false)
  else (s, false)

end Pkg

namespace Flat

/-- `PlaybackManager.start` of `src/playback.py`: as in the packaged
version but without touching the loop flag. -/
def start (dirs : Dirs) (rnd : Rand) (s : Sys) : Sys :=
  match randomFile dirs.idleFiles rnd.idleChoice with
  | none => s
  | some idle =>
    let s1 := { s with mpv := { s.mpv with playlist := [] }, m3u := [] }
    let s2 := { s1 with mpv := { s1.mpv with playlist := s1.mpv.playlist ++ [idle] } }
    let s3 := { s2 with m3u := [idle] }
    { s3 with mpv := { s3.mpv with paused := false } }

/-- `PlaybackManager.trigger_event` of `src/playback.py`: always
records `last_event_ts = now`; returns false when in random mode, when
the events directory is empty, or when the persisted queue is empty;
otherwise builds `[persisted head, event]` plus a fresh idle file when
one exists, persists it and rebuilds the engine playlist. -/
def triggerEvent (dirs : Dirs) (rnd : Rand) (now : ℚ) (s : Sys) : Bool × Sys :=
  let s0 := { s with lastEventTs := now }
  if s0.inRandomMode then (false, s0)
  else
    match randomFile dirs.eventFiles rnd.eventChoice with
    | none => (false, s0)
    | some ev =>
      match s0.m3u with
      | [] => (false, s0)
      | h0 :: _ =>
        let idle := randomFile dirs.idleFiles rnd.idleChoice
        let newlst := h0 :: ev :: idle.toList
        (true, rebuildMpvPlaylist newlst { s0 with m3u := newlst })

/-- `PlaybackManager.trigger_random` of `src/playback.py`: as the
packaged version but without touching the loop flag. -/
def triggerRandom (dirs : Dirs) (rnd : Rand) (now : ℚ) (s : Sys) : Bool × Sys :=
  match randomFile dirs.randomFiles rnd.randomChoice with
  | none => (false, s)
  | some r =>
    match s.m3u with
    | [] => (false, s)
    | h0 :: _ =>
      let idle := randomFile dirs.idleFiles rnd.idleChoice
      let newlst := h0 :: r :: idle.toList
      let s1 := rebuildMpvPlaylist newlst { s with m3u := newlst }
      (true, { s1 with lastRandomInjectedTs := now })

/-- One pass of the body of `_idle_monitor_loop` in `src/playback.py`:
skip when in random mode; when the current path is non-empty, under the
idle directory and both time guards pass, invoke `trigger_random`. -/
def idleTick (dirs : Dirs) (rnd : Rand) (p : Paths) (waitS : Int)
    (now1 now2 : ℚ) (s : Sys) : Sys × Bool :=
  if s.inRandomMode then (s, false)
  else
    let cur := s.currentPath
    if cur ≠ "" ∧ strStartsWith cur p.idleDir then
      if (waitS : ℚ) ≤ now1 - s.lastEventTs then
        if ((max 5 (Int.fdiv waitS 2) : Int) : ℚ) ≤ now2 - s.lastRandomInjectedTs then
          ((triggerRandom dirs rnd now2 s).2, true)
        else (s, false)
      else (s, false)
    else (s, false)

end Flat

/-- The 8-byte Art-Net magic header `b"Art-Net\x00"` checked by
`ControlManager._start_artnet` in `src/control.py`. -/
def artnetHeader : List Nat := [65, 114, 116, 45, 78, 101, 116, 0]

/-- The channel preprocessing of `_start_artnet`:
`max(1, min(512, int(channel))) - 1`, a 0-based index in `[0, 511]`. -/
def clampChannel (c : Int) : Nat := (max 1 (min 512 c) - 1).toNat

/-- The per-datagram decision of the `_start_artnet` receive loop in
`src/control.py`, given the configured universe and threshold and the
already clamped 0-based channel index: drop the datagram unless it
starts with the magic header and bytes 8..9 are the OpDmx opcode
`b"\x00P"`; unpack the little-endian universe at bytes 14..15 (a
datagram too short for the unpack raises and never fires); require it
to equal the configured universe; unpack the big-endian data length at
bytes 16..17; slice the DMX payload from byte 18; fire exactly when the
channel index lands inside that payload and the byte there reaches the
threshold. -/
def artnetFires (uni thr : Int) (channel0 : Nat) (data : List Nat) : Bool :=
  if ¬ artnetHeader.isPrefixOf data then false
  else if ¬ ((data.drop 8).take 2 = [0, 80]) then false
  else
    match data[14]?, data[15]? with
    | some b14, some b15 =>
      if ((b14 + 256 * b15 : Nat) : Int) ≠ uni then false
      else
        match data[16]?, data[17]? with
        | some b16, some b17 =>
          let dmx := (data.drop 18).take (256 * b16 + b17)
          match dmx[channel0]? with
          | some b => decide (thr ≤ (b : Int))
          | none => false
        | _, _ => false
    | _, _ => false

-- Helper lemmas about `randomFile`.

lemma randomFile_mem {vids : List String} {c : Nat} {x : String}
    (h : randomFile vids c = some x) : x ∈ vids := by
  unfold randomFile at h
  split at h
  · exact absurd h (by simp)
  · exact List.get?_mem h

lemma strStartsWith_empty_left {p : String} (h : strStartsWith ("") p = true) :
    p = "" := by
  unfold strStartsWith at h
  rw [List.isPrefixOf_iff_prefix] at h
  have hd : p.data = [] := by simpa using h.eq_of_length_le (by simp)
  cases p
  simp_all

lemma randomFile_eq_none_iff {vids : List String} {c : Nat} :
    randomFile vids c = none ↔ vids = [] := by
  unfold randomFile
  split
  · rename_i he
    simp only [List.isEmpty_iff] at he
    simp [he]
  · rename_i hne
    simp only [List.isEmpty_iff] at hne
    constructor
    · intro h
      rw [List.get?_eq_none] at h
      have hlen : 0 < vids.length := List.length_pos.mpr hne
      have := Nat.mod_lt c hlen
      omega
    · intro h
      exact absurd h hne

@[simp] lemma rebuildMpvPlaylist_m3u (items : List String) (s : Sys) :
    (rebuildMpvPlaylist items s).m3u = s.m3u := rfl

@[simp] lemma rebuildMpvPlaylist_playlist (items : List String) (s : Sys) :
    (rebuildMpvPlaylist items s).mpv.playlist = items := rfl

@[simp] lemma rebuildMpvPlaylist_playIndex (items : List String) (s : Sys) :
    (rebuildMpvPlaylist items s).mpv.playIndex =
      if s.mpv.path ≠ "" ∧ s.mpv.path ∈ items then items.indexOf s.mpv.path else 0 := rfl

@[simp] lemma rebuildMpvPlaylist_inRandomMode (items : List String) (s : Sys) :
    (rebuildMpvPlaylist items s).inRandomMode = s.inRandomMode := rfl

@[simp] lemma rebuildMpvPlaylist_lastEventTs (items : List String) (s : Sys) :
    (rebuildMpvPlaylist items s).lastEventTs = s.lastEventTs := rfl

/-- A sequence of `trigger_event` calls on the packaged manager, each
with its own random draw and wall-clock reading, folded over the
state. -/
def Pkg.triggerEventSeq (dirs : Dirs) (calls : List (Rand × ℚ)) (s : Sys) : Sys :=
  calls.foldl (fun t c => (Pkg.triggerEvent dirs c.1 c.2 t).2) s

/-- A sequence of `trigger_event` calls on the root-level manager. -/
def Flat.triggerEventSeq (dirs : Dirs) (calls : List (Rand × ℚ)) (s : Sys) : Sys :=
  calls.foldl (fun t c => (Flat.triggerEvent dirs c.1 c.2 t).2) s

lemma Pkg.triggerEvent_suppressed (dirs : Dirs) (rnd : Rand) (now : ℚ) (s : Sys)
    (h : s.inRandomMode = true) :
    Pkg.triggerEvent dirs rnd now s = (false, { s with lastEventTs := now }) := by
  unfold Pkg.triggerEvent
  simp [h]

lemma Flat.triggerEvent_suppressed_flat (dirs : Dirs) (rnd : Rand) (now : ℚ) (s : Sys)
    (h : s.inRandomMode = true) :
    Flat.triggerEvent dirs rnd now s = (false, { s with lastEventTs := now }) := by
  unfold Flat.triggerEvent
  simp [h]

lemma Pkg.triggerEventSeq_suppressed (dirs : Dirs) (calls : List (Rand × ℚ)) (s : Sys)
    (h : s.inRandomMode = true) :
    (Pkg.triggerEventSeq dirs calls s).m3u = s.m3u ∧
    (Pkg.triggerEventSeq dirs calls s).mpv = s.mpv := by
  induction calls generalizing s with
  | nil => exact ⟨rfl, rfl⟩
  | cons c cs ih =>
    have hstep := Pkg.triggerEvent_suppressed dirs c.1 c.2 s h
    unfold Pkg.triggerEventSeq at ih ⊢
    rw [List.foldl_cons, hstep]
    exact ih { s with lastEventTs := c.2 } h

lemma Flat.triggerEventSeq_suppressed_flat (dirs : Dirs) (calls : List (Rand × ℚ)) (s : Sys)
    (h : s.inRandomMode = true) :
    (Flat.triggerEventSeq dirs calls s).m3u = s.m3u ∧
    (Flat.triggerEventSeq dirs calls s).mpv = s.mpv := by
  induction calls generalizing s with
  | nil => exact ⟨rfl, rfl⟩
  | cons c cs ih =>
    have hstep := Flat.triggerEvent_suppressed_flat dirs c.1 c.2 s h
    unfold Flat.triggerEventSeq at ih ⊢
    rw [List.foldl_cons, hstep]
    exact ih { s with lastEventTs := c.2 } h

-- Concrete inputs used by the witnesses below.

/-- Sample media directories holding one idle, one event and one random
file. -/
def exDirs : Dirs := ⟨["i"], ["e"], ["r"]⟩

/-- Sample random draw. -/
def exRand : Rand := ⟨0, 0, 0⟩

/-- Sample state with the random-mode flag set. -/
def exSysRandom : Sys := { initSys with inRandomMode := true }

/-- Sample state with a non-empty persisted queue. -/
def exSysQ : Sys := { initSys with m3u := ["a"] }

/-- Sample sequence of calls. -/
def exCalls : List (Rand × ℚ) := [(⟨0, 0, 0⟩, 2), (⟨1, 1, 1⟩, 3)]

/-- C1: every `trigger_event` call made while the random-mode flag is
set returns false, leaves the persisted queue and the engine state
unchanged and keeps the flag set, in both implementations; hence any
sequence of such calls leaves the persisted queue and the engine state
unchanged. -/
theorem fireEvent_random_suppressed (dirs : Dirs) (rnd : Rand) (now : ℚ)
    (calls : List (Rand × ℚ)) (s : Sys) (h : s.inRandomMode = true) :
    (Pkg.triggerEvent dirs rnd now s).1 = false ∧
    (Pkg.triggerEvent dirs rnd now s).2.m3u = s.m3u ∧
    (Pkg.triggerEvent dirs rnd now s).2.mpv = s.mpv ∧
    (Pkg.triggerEvent dirs rnd now s).2.inRandomMode = true ∧
    (Pkg.triggerEventSeq dirs calls s).m3u = s.m3u ∧
    (Pkg.triggerEventSeq dirs calls s).mpv = s.mpv ∧
    (Flat.triggerEvent dirs rnd now s).1 = false ∧
    (Flat.triggerEvent dirs rnd now s).2.m3u = s.m3u ∧
    (Flat.triggerEvent dirs rnd now s).2.mpv = s.mpv ∧
    (Flat.triggerEventSeq dirs calls s).m3u = s.m3u ∧
    (Flat.triggerEventSeq dirs calls s).mpv = s.mpv := by
  have hp := Pkg.triggerEvent_suppressed dirs rnd now s h
  have hf := Flat.triggerEvent_suppressed_flat dirs rnd now s h
  have hps := Pkg.triggerEventSeq_suppressed dirs calls s h
  have hfs := Flat.triggerEventSeq_suppressed_flat dirs calls s h
  refine ⟨?_, ?_, ?_, ?_, hps.1, hps.2, ?_, ?_, ?_, hfs.1, hfs.2⟩ <;>
    simp [hp, hf, h]

/-- C1 witness: the suppression theorem applied at a state with the
random-mode flag set, a concrete directory layout and a concrete call
sequence. -/
theorem fireEvent_random_suppressed_witness :
    exSysRandom.inRandomMode = true ∧
    ((Pkg.triggerEvent exDirs exRand 1 exSysRandom).1 = false ∧
     (Pkg.triggerEvent exDirs exRand 1 exSysRandom).2.m3u = exSysRandom.m3u ∧
     (Pkg.triggerEvent exDirs exRand 1 exSysRandom).2.mpv = exSysRandom.mpv ∧
     (Pkg.triggerEvent exDirs exRand 1 exSysRandom).2.inRandomMode = true ∧
     (Pkg.triggerEventSeq exDirs exCalls exSysRandom).m3u = exSysRandom.m3u ∧
     (Pkg.triggerEventSeq exDirs exCalls exSysRandom).mpv = exSysRandom.mpv ∧
     (Flat.triggerEvent exDirs exRand 1 exSysRandom).1 = false ∧
     (Flat.triggerEvent exDirs exRand 1 exSysRandom).2.m3u = exSysRandom.m3u ∧
     (Flat.triggerEvent exDirs exRand 1 exSysRandom).2.mpv = exSysRandom.mpv ∧
     (Flat.triggerEventSeq exDirs exCalls exSysRandom).m3u = exSysRandom.m3u ∧
     (Flat.triggerEventSeq exDirs exCalls exSysRandom).mpv = exSysRandom.mpv) :=
  ⟨rfl, fireEvent_random_suppressed exDirs exRand 1 exCalls exSysRandom rfl⟩

/-- C2: both implementations of `trigger_event` record
`last_event_ts = now` on every call, whether suppressed by random mode,
failed by a missing event file or successful. -/
theorem fireEvent_updates_lastEventAt (dirs : Dirs) (rnd : Rand) (now : ℚ) (s : Sys) :
    (Pkg.triggerEvent dirs rnd now s).2.lastEventTs = now ∧
    (Flat.triggerEvent dirs rnd now s).2.lastEventTs = now := by
  constructor
  · simp only [Pkg.triggerEvent]
    split
    · rfl
    · split <;> rfl
  · simp only [Flat.triggerEvent]
    split
    · rfl
    · split
      · rfl
      · split <;> rfl

/-- C9: with an empty idle directory, `start` is a no-op in both
implementations: the state (in particular `current_path`, the persisted
queue and the engine) is untouched. -/
theorem start_empty_idle_noop (dirs : Dirs) (rnd : Rand) (s : Sys)
    (h : dirs.idleFiles = []) :
    Pkg.start dirs rnd s = s ∧ Flat.start dirs rnd s = s ∧
    (Pkg.start dirs rnd s).currentPath = s.currentPath := by
  have hn : randomFile dirs.idleFiles rnd.idleChoice = none :=
    randomFile_eq_none_iff.mpr h
  unfold Pkg.start Flat.start
  simp [hn]

/-- C9 witness: `start` with an empty idle directory at a concrete
fresh state. -/
theorem start_empty_idle_noop_witness :
    (⟨[], ["e"], ["r"]⟩ : Dirs).idleFiles = [] ∧
    (Pkg.start ⟨[], ["e"], ["r"]⟩ exRand initSys = initSys ∧
     Flat.start ⟨[], ["e"], ["r"]⟩ exRand initSys = initSys ∧
     (Pkg.start ⟨[], ["e"], ["r"]⟩ exRand initSys).currentPath = initSys.currentPath) :=
  ⟨rfl, start_empty_idle_noop ⟨[], ["e"], ["r"]⟩ exRand initSys rfl⟩

/-- C10: with an empty persisted queue, `trigger_random` returns false
and leaves the whole state unchanged in both implementations, whatever
the directories contain. -/
theorem fireRandom_empty_queue_noop (dirs : Dirs) (rnd : Rand) (now : ℚ) (s : Sys)
    (h : s.m3u = []) :
    Pkg.triggerRandom dirs rnd now s = (false, s) ∧
    Flat.triggerRandom dirs rnd now s = (false, s) := by
  unfold Pkg.triggerRandom Flat.triggerRandom
  cases hr : randomFile dirs.randomFiles rnd.randomChoice <;> simp [h, hr]

/-- C10 witness: `trigger_random` on a state with an empty persisted
queue while every media directory is populated. -/
theorem fireRandom_empty_queue_noop_witness :
    initSys.m3u = [] ∧
    (Pkg.triggerRandom exDirs exRand 7 initSys = (false, initSys) ∧
     Flat.triggerRandom exDirs exRand 7 initSys = (false, initSys)) :=
  ⟨rfl, fireRandom_empty_queue_noop exDirs exRand 7 initSys rfl⟩

/-- The shape of the state left by a successful packaged
`trigger_event`: the persisted queue is a freshly drawn event file
followed by a freshly drawn idle file when the idle directory has one,
and by nothing otherwise; the engine playlist equals the persisted
queue, play position is index 0, looping is disabled and the
random-mode flag is clear. -/
def eventSuccessShape (dirs : Dirs) (rnd : Rand) (t : Sys) : Prop :=
  ∃ e, e ∈ dirs.eventFiles ∧
    t.m3u = e :: (randomFile dirs.idleFiles rnd.idleChoice).toList ∧
    (∀ i ∈ (randomFile dirs.idleFiles rnd.idleChoice).toList, i ∈ dirs.idleFiles) ∧
    (dirs.idleFiles = [] → t.m3u = [e]) ∧
    (dirs.idleFiles ≠ [] → ∃ i, i ∈ dirs.idleFiles ∧ t.m3u = [e, i]) ∧
    t.mpv.playlist = t.m3u ∧
    t.mpv.playIndex = 0 ∧
    t.mpv.loopPlaylist = "no" ∧
    t.inRandomMode = false

/-- C3 counterexample: with a single event file and an empty idle
directory, the packaged `trigger_event` returns true yet persists the
one-element queue `["e"]`, not a two-element `[event, idle]` pair. -/
theorem fireEvent_pair_counterexample :
    (Pkg.triggerEvent ⟨[], ["e"], []⟩ exRand 0 initSys).1 = true ∧
    (Pkg.triggerEvent ⟨[], ["e"], []⟩ exRand 0 initSys).2.m3u = ["e"] ∧
    (Pkg.triggerEvent ⟨[], ["e"], []⟩ exRand 0 initSys).2.m3u.length ≠ 2 := by
  decide

/-- C3 amended: whenever the packaged `trigger_event` returns true, the
queue it persisted and pushed to the engine is `[event, idle]` when the
idle directory is non-empty and `[event]` alone when it is empty, with
playback position reset to index 0, looping disabled and the mode
non-random afterwards. -/
theorem fireEvent_success_queue_shape (dirs : Dirs) (rnd : Rand) (now : ℚ) (s : Sys)
    (h : (Pkg.triggerEvent dirs rnd now s).1 = true) :
    eventSuccessShape dirs rnd (Pkg.triggerEvent dirs rnd now s).2 := by
  by_cases hm : s.inRandomMode = true
  · rw [Pkg.triggerEvent_suppressed dirs rnd now s hm] at h
    exact absurd h (by simp)
  · cases hev : randomFile dirs.eventFiles rnd.eventChoice with
    | none =>
      unfold Pkg.triggerEvent at h
      simp [hm, hev] at h
    | some ev =>
      unfold Pkg.triggerEvent eventSuccessShape
      simp only [hm, hev, if_neg, Bool.not_eq_true]
      refine ⟨ev, randomFile_mem hev, ?_⟩
      cases hid : randomFile dirs.idleFiles rnd.idleChoice with
      | none =>
        have hie : dirs.idleFiles = [] := randomFile_eq_none_iff.mp hid
        simp [hm, hid, hie]
      | some i =>
        have hine : dirs.idleFiles ≠ [] := by
          intro he
          rw [randomFile_eq_none_iff.mpr he] at hid
          exact Option.noConfusion hid
        simp [hm, hid, hine]
        exact randomFile_mem hid

/-- C3 witness: a successful packaged `trigger_event` with both an
event and an idle file available. -/
theorem fireEvent_success_queue_shape_witness :
    (Pkg.triggerEvent exDirs exRand 1 initSys).1 = true ∧
    eventSuccessShape exDirs exRand (Pkg.triggerEvent exDirs exRand 1 initSys).2 :=
  ⟨by decide, fireEvent_success_queue_shape exDirs exRand 1 initSys (by decide)⟩

/-- C4 counterexample: the packaged `trigger_event`, starting from a
persisted queue `["a"]` with one event file `"e"` and one idle file
`"i"`, succeeds and persists `["e", "i"]`: the first element is the
fresh event file rather than the prior head `"a"`, and the second
element is the idle file, which is not in the event category. -/
theorem fireEvent_head_continuity_counterexample :
    (Pkg.triggerEvent ⟨["i"], ["e"], []⟩ exRand 1 exSysQ).1 = true ∧
    (Pkg.triggerEvent ⟨["i"], ["e"], []⟩ exRand 1 exSysQ).2.m3u = ["e", "i"] ∧
    (Pkg.triggerEvent ⟨["i"], ["e"], []⟩ exRand 1 exSysQ).2.m3u.head? ≠ exSysQ.m3u.head? ∧
    ¬ ∃ e, e ∈ (⟨["i"], ["e"], []⟩ : Dirs).eventFiles ∧
        (Pkg.triggerEvent ⟨["i"], ["e"], []⟩ exRand 1 exSysQ).2.m3u.get? 1 = some e := by
  decide

/-- C4 amended: for the root-level `trigger_event` of `src/playback.py`
(the packaged variant instead persists the event file first, so the
property fails there): whenever it returns true, the persisted queue it
wrote has an event-category file as its second element and keeps the
head of the previously persisted queue as its first element. -/
theorem fireEvent_flat_head_continuity (dirs : Dirs) (rnd : Rand) (now : ℚ) (s : Sys)
    (h : (Flat.triggerEvent dirs rnd now s).1 = true) :
    (∃ e, e ∈ dirs.eventFiles ∧
      (Flat.triggerEvent dirs rnd now s).2.m3u.get? 1 = some e) ∧
    (Flat.triggerEvent dirs rnd now s).2.m3u.head? = s.m3u.head? := by
  by_cases hm : s.inRandomMode = true
  · rw [Flat.triggerEvent_suppressed_flat dirs rnd now s hm] at h
    exact absurd h (by simp)
  · cases hev : randomFile dirs.eventFiles rnd.eventChoice with
    | none =>
      unfold Flat.triggerEvent at h
      simp [hm, hev] at h
    | some ev =>
      cases hq : s.m3u with
      | nil =>
        unfold Flat.triggerEvent at h
        simp [hm, hev, hq] at h
      | cons h0 tl =>
        unfold Flat.triggerEvent
        simp [hm, hev, hq]
        exact randomFile_mem hev

/-- C4 witness: a successful root-level `trigger_event` from a state
with a non-empty persisted queue. -/
theorem fireEvent_flat_head_continuity_witness :
    (Flat.triggerEvent exDirs exRand 1 exSysQ).1 = true ∧
    ((∃ e, e ∈ exDirs.eventFiles ∧
       (Flat.triggerEvent exDirs exRand 1 exSysQ).2.m3u.get? 1 = some e) ∧
     (Flat.triggerEvent exDirs exRand 1 exSysQ).2.m3u.head? = exSysQ.m3u.head?) :=
  ⟨by decide, fireEvent_flat_head_continuity exDirs exRand 1 exSysQ (by decide)⟩

/-- The guard conjunction of the idle monitor: not in random mode, the
current path under the idle directory, at least `idle_to_random_seconds`
since the last event, and at least `max(5, idle_to_random_seconds // 2)`
since the last random injection.  The two clock readings of a tick are
`now1` and `now2`. -/
def idleGuards (p : Paths) (waitS : Int) (now1 now2 : ℚ) (s : Sys) : Prop :=
  s.inRandomMode = false ∧
  strStartsWith s.currentPath p.idleDir = true ∧
  (waitS : ℚ) ≤ now1 - s.lastEventTs ∧
  ((max 5 (Int.fdiv waitS 2) : Int) : ℚ) ≤ now2 - s.lastRandomInjectedTs

lemma Pkg.idleTick_fires_iff (dirs : Dirs) (rnd : Rand) (p : Paths) (waitS : Int)
    (now1 now2 : ℚ) (s : Sys) (hp : p.idleDir ≠ "") :
    (Pkg.idleTick dirs rnd p waitS now1 now2 s).2 = true ↔
      idleGuards p waitS now1 now2 s := by
  unfold Pkg.idleTick idleGuards
  by_cases h2 : strStartsWith s.currentPath p.idleDir = true
  · have hcur : s.currentPath ≠ "" := by
      intro hc
      rw [hc] at h2
      exact hp (strStartsWith_empty_left h2)
    rw [if_neg hcur]
    split_ifs <;> simp_all
  · by_cases hcur : s.currentPath = ""
    · rw [if_pos hcur]
      simp [h2]
    · rw [if_neg hcur]
      split_ifs <;> simp_all

lemma Flat.idleTick_fires_iff_flat (dirs : Dirs) (rnd : Rand) (p : Paths) (waitS : Int)
    (now1 now2 : ℚ) (s : Sys) (hp : p.idleDir ≠ "") :
    (Flat.idleTick dirs rnd p waitS now1 now2 s).2 = true ↔
      idleGuards p waitS now1 now2 s := by
  unfold Flat.idleTick idleGuards
  by_cases h2 : strStartsWith s.currentPath p.idleDir = true
  · have hcur : s.currentPath ≠ "" := by
      intro hc
      rw [hc] at h2
      exact hp (strStartsWith_empty_left h2)
    split_ifs <;> simp_all
  · split_ifs <;> simp_all

/-- Sample directory path strings. -/
def exPaths : Paths := ⟨"/m/idle", "/m/random"⟩

/-- Sample state that is playing an idle file, long after the last
event and injection. -/
def exSysIdle : Sys := { initSys with currentPath := "/m/idle/a", m3u := ["/m/idle/a"] }

/-- C5: in both implementations, an idle-monitor tick invokes
`trigger_random` exactly when the random-mode flag is clear, the
current path lies under the idle directory, at least
`idle_to_random_seconds` have passed since the last event and at least
`max(5, idle_to_random_seconds // 2)` since the last random injection;
whenever any guard is unmet, no injection is attempted. -/
theorem idle_monitor_fires_iff (dirs : Dirs) (rnd : Rand) (p : Paths) (waitS : Int)
    (now1 now2 : ℚ) (s : Sys) (hp : p.idleDir ≠ "") :
    ((Pkg.idleTick dirs rnd p waitS now1 now2 s).2 = true ↔
      idleGuards p waitS now1 now2 s) ∧
    ((Flat.idleTick dirs rnd p waitS now1 now2 s).2 = true ↔
      idleGuards p waitS now1 now2 s) :=
  ⟨Pkg.idleTick_fires_iff dirs rnd p waitS now1 now2 s hp,
   Flat.idleTick_fires_iff_flat dirs rnd p waitS now1 now2 s hp⟩

/-- C5 witness: the guard equivalence at a concrete tick whose guards
are all met. -/
theorem idle_monitor_fires_iff_witness :
    exPaths.idleDir ≠ "" ∧
    (((Pkg.idleTick exDirs exRand exPaths 60 100 100 exSysIdle).2 = true ↔
       idleGuards exPaths 60 100 100 exSysIdle) ∧
     ((Flat.idleTick exDirs exRand exPaths 60 100 100 exSysIdle).2 = true ↔
       idleGuards exPaths 60 100 100 exSysIdle)) :=
  ⟨by decide, idle_monitor_fires_iff exDirs exRand exPaths 60 100 100 exSysIdle (by decide)⟩

/-- C6: the Art-Net listener fires its callback on a datagram exactly
when the datagram starts with the magic header, bytes 8 and 9 are the
OpDmx opcode, the little-endian universe at bytes 14 and 15 equals the
configured universe, and the clamped configured channel indexes a byte
inside the DMX payload delimited by the big-endian length at bytes 16
and 17 whose value reaches the threshold (the boundary is inclusive);
datagrams too short to carry these fields never fire. -/
theorem artnet_trigger_iff (uni thr ch : Int) (data : List Nat) :
    artnetFires uni thr (clampChannel ch) data = true ↔
      (artnetHeader.isPrefixOf data = true ∧
       (data.drop 8).take 2 = [0, 80] ∧
       ∃ b14 b15 b16 b17,
         data[14]? = some b14 ∧ data[15]? = some b15 ∧
         data[16]? = some b16 ∧ data[17]? = some b17 ∧
         ((b14 + 256 * b15 : Nat) : Int) = uni ∧
         ∃ b, ((data.drop 18).take (256 * b16 + b17))[clampChannel ch]? = some b ∧
           thr ≤ (b : Int)) := by
  unfold artnetFires
  by_cases hh : artnetHeader.isPrefixOf data = true
  · by_cases ho : (data.drop 8).take 2 = [0, 80]
    · cases h14 : data[14]? with
      | none => simp [hh, ho, h14]
      | some b14 =>
        cases h15 : data[15]? with
        | none => simp [hh, ho, h14, h15]
        | some b15 =>
          by_cases hu : ((b14 : Int) + 256 * (b15 : Int)) = uni
          · cases h16 : data[16]? with
            | none => simp [hh, ho, h14, h15, hu, h16]
            | some b16 =>
              cases h17 : data[17]? with
              | none => simp [hh, ho, h14, h15, hu, h16, h17]
              | some b17 =>
                cases hb : ((data.drop 18).take (256 * b16 + b17))[clampChannel ch]? with
                | none => simp [hh, ho, h14, h15, hu, h16, h17, hb]
                | some b => simp [hh, ho, h14, h15, hu, h16, h17, hb]
          · simp [hh, ho, h14, h15, hu]
    · simp [hh, ho]
  · simp [hh]

lemma Pkg.triggerEvent_inRandomMode (dirs : Dirs) (rnd : Rand) (now : ℚ) (s : Sys) :
    (Pkg.triggerEvent dirs rnd now s).2.inRandomMode = s.inRandomMode := by
  by_cases hm : s.inRandomMode = true
  · rw [Pkg.triggerEvent_suppressed dirs rnd now s hm]
  · have hm' : s.inRandomMode = false := by simpa using hm
    unfold Pkg.triggerEvent
    cases hev : randomFile dirs.eventFiles rnd.eventChoice <;> simp [hm', hev]

lemma Flat.triggerEvent_inRandomMode_flat (dirs : Dirs) (rnd : Rand) (now : ℚ) (s : Sys) :
    (Flat.triggerEvent dirs rnd now s).2.inRandomMode = s.inRandomMode := by
  by_cases hm : s.inRandomMode = true
  · rw [Flat.triggerEvent_suppressed_flat dirs rnd now s hm]
  · have hm' : s.inRandomMode = false := by simpa using hm
    unfold Flat.triggerEvent
    cases hev : randomFile dirs.eventFiles rnd.eventChoice <;>
      cases hq : s.m3u <;> simp [hm', hev, hq]

lemma Pkg.triggerRandom_inRandomMode (dirs : Dirs) (rnd : Rand) (now : ℚ) (s : Sys) :
    (Pkg.triggerRandom dirs rnd now s).2.inRandomMode = s.inRandomMode := by
  unfold Pkg.triggerRandom
  cases hr : randomFile dirs.randomFiles rnd.randomChoice <;>
    cases hq : s.m3u <;> simp [hr, hq]

lemma Flat.triggerRandom_inRandomMode_flat (dirs : Dirs) (rnd : Rand) (now : ℚ) (s : Sys) :
    (Flat.triggerRandom dirs rnd now s).2.inRandomMode = s.inRandomMode := by
  unfold Flat.triggerRandom
  cases hr : randomFile dirs.randomFiles rnd.randomChoice <;>
    cases hq : s.m3u <;> simp [hr, hq]

lemma Pkg.start_inRandomMode (dirs : Dirs) (rnd : Rand) (s : Sys) :
    (Pkg.start dirs rnd s).inRandomMode = s.inRandomMode := by
  unfold Pkg.start
  cases hid : randomFile dirs.idleFiles rnd.idleChoice <;> simp [hid]

lemma Flat.start_inRandomMode_flat (dirs : Dirs) (rnd : Rand) (s : Sys) :
    (Flat.start dirs rnd s).inRandomMode = s.inRandomMode := by
  unfold Flat.start
  cases hid : randomFile dirs.idleFiles rnd.idleChoice <;> simp [hid]

/-- C7: the engine path-change observer is the only operation that
changes the random-mode flag: it sets the flag true when the reported
path is under the random directory, false when it is under the idle
directory (random takes precedence when both prefixes match) and leaves
it alone otherwise, and it records the path into `current_path`; the
trigger methods and `start` of both implementations leave the value of
the flag unchanged on every input. -/
theorem random_mode_flag_semantics (p : Paths) (v : Option String)
    (dirs : Dirs) (rnd : Rand) (now : ℚ) (s : Sys) :
    ((onEnginePathChanged p v s).inRandomMode =
      (if strStartsWith (optStr v) p.randomDir then true
       else if strStartsWith (optStr v) p.idleDir then false
       else s.inRandomMode)) ∧
    (onEnginePathChanged p v s).currentPath = optStr v ∧
    (Pkg.triggerEvent dirs rnd now s).2.inRandomMode = s.inRandomMode ∧
    (Pkg.triggerRandom dirs rnd now s).2.inRandomMode = s.inRandomMode ∧
    (Pkg.start dirs rnd s).inRandomMode = s.inRandomMode ∧
    (Flat.triggerEvent dirs rnd now s).2.inRandomMode = s.inRandomMode ∧
    (Flat.triggerRandom dirs rnd now s).2.inRandomMode = s.inRandomMode ∧
    (Flat.start dirs rnd s).inRandomMode = s.inRandomMode := by
  refine ⟨?_, ?_,
    Pkg.triggerEvent_inRandomMode dirs rnd now s,
    Pkg.triggerRandom_inRandomMode dirs rnd now s,
    Pkg.start_inRandomMode dirs rnd s,
    Flat.triggerEvent_inRandomMode_flat dirs rnd now s,
    Flat.triggerRandom_inRandomMode_flat dirs rnd now s,
    Flat.start_inRandomMode_flat dirs rnd s⟩
  · by_cases hr : strStartsWith (optStr v) p.randomDir = true <;>
    by_cases hi : strStartsWith (optStr v) p.idleDir = true <;>
    simp [onEnginePathChanged, hr, hi]
  · by_cases hr : strStartsWith (optStr v) p.randomDir = true <;>
    by_cases hi : strStartsWith (optStr v) p.idleDir = true <;>
    simp [onEnginePathChanged, hr, hi]

/-- Sample state playing the second item of a persisted two-item
queue. -/
def c8Sys : Sys := { initSys with m3u := ["e", "i"], mpv := { initSys.mpv with path := "i" } }

/-- C8 counterexample: with the engine playing the second queue item
`"i"`, a random file available and an empty idle directory, the
packaged `trigger_random` succeeds but persists `["e", "r"]`: the first
element is the stale persisted head, not the currently playing item,
and no idle element is appended. -/
theorem fireRandom_currentHead_counterexample :
    (Pkg.triggerRandom ⟨[], [], ["r"]⟩ exRand 5 c8Sys).1 = true ∧
    c8Sys.mpv.path = "i" ∧
    (Pkg.triggerRandom ⟨[], [], ["r"]⟩ exRand 5 c8Sys).2.m3u = ["e", "r"] ∧
    (Pkg.triggerRandom ⟨[], [], ["r"]⟩ exRand 5 c8Sys).2.m3u.head? ≠ some ("i") ∧
    (Pkg.triggerRandom ⟨[], [], ["r"]⟩ exRand 5 c8Sys).2.m3u.length ≠ 3 := by
  decide

/-- The shape of the state left by a successful packaged
`trigger_random`: the persisted queue is the head of the previously
persisted queue, then a freshly drawn random file, then a freshly drawn
idle file when the idle directory has one; the engine playlist equals
the persisted queue and resumes at the index of the currently playing
path when that path is non-empty and listed, else index 0; the
injection timestamp is recorded. -/
def randomSuccessShape (dirs : Dirs) (rnd : Rand) (now : ℚ) (s t : Sys) : Prop :=
  ∃ r h0, r ∈ dirs.randomFiles ∧ s.m3u.head? = some h0 ∧
    t.m3u = h0 :: r :: (randomFile dirs.idleFiles rnd.idleChoice).toList ∧
    (∀ i ∈ (randomFile dirs.idleFiles rnd.idleChoice).toList, i ∈ dirs.idleFiles) ∧
    t.mpv.playlist = t.m3u ∧
    t.mpv.playIndex =
      (if s.mpv.path ≠ "" ∧ s.mpv.path ∈ t.m3u then t.m3u.indexOf s.mpv.path else 0) ∧
    t.lastRandomInjectedTs = now

/-- C8 amended: whenever the packaged `trigger_random` returns true,
the persisted queue becomes the stale persisted head (not necessarily
the currently playing item), then a random-category file, then an
idle-category file only when one exists; the engine queue is rebuilt
resuming at the currently playing path when it appears in the new
queue and at index 0 otherwise; `last_random_injected_ts` is set to
now.  The call never consults the random-mode flag: changing the flag
changes nothing else in the outcome. -/
theorem fireRandom_success_shape (dirs : Dirs) (rnd : Rand) (now : ℚ) (s : Sys)
    (h : (Pkg.triggerRandom dirs rnd now s).1 = true) :
    randomSuccessShape dirs rnd now s (Pkg.triggerRandom dirs rnd now s).2 ∧
    ∀ b, Pkg.triggerRandom dirs rnd now { s with inRandomMode := b } =
      ((Pkg.triggerRandom dirs rnd now s).1,
       { (Pkg.triggerRandom dirs rnd now s).2 with inRandomMode := b }) := by
  constructor
  · cases hr : randomFile dirs.randomFiles rnd.randomChoice with
    | none =>
      unfold Pkg.triggerRandom at h
      simp [hr] at h
    | some r =>
      cases hq : s.m3u with
      | nil =>
        unfold Pkg.triggerRandom at h
        simp [hr, hq] at h
      | cons h0 tl =>
        have hm3u : (Pkg.triggerRandom dirs rnd now s).2.m3u =
            h0 :: r :: (randomFile dirs.idleFiles rnd.idleChoice).toList := by
          unfold Pkg.triggerRandom
          simp [hr, hq]
        have hpl : (Pkg.triggerRandom dirs rnd now s).2.mpv.playlist =
            h0 :: r :: (randomFile dirs.idleFiles rnd.idleChoice).toList := by
          unfold Pkg.triggerRandom
          simp [hr, hq]
        have hidx : (Pkg.triggerRandom dirs rnd now s).2.mpv.playIndex =
            (if s.mpv.path ≠ "" ∧
                s.mpv.path ∈ h0 :: r :: (randomFile dirs.idleFiles rnd.idleChoice).toList
             then (h0 :: r :: (randomFile dirs.idleFiles rnd.idleChoice).toList).indexOf
                    s.mpv.path
             else 0) := by
          unfold Pkg.triggerRandom
          simp [hr, hq]
        have hts : (Pkg.triggerRandom dirs rnd now s).2.lastRandomInjectedTs = now := by
          unfold Pkg.triggerRandom
          simp [hr, hq]
        refine ⟨r, h0, randomFile_mem hr, by rw [hq]; rfl, hm3u, ?_, ?_, ?_, hts⟩
        · intro i hi
          cases hid : randomFile dirs.idleFiles rnd.idleChoice with
          | none => simp [hid] at hi
          | some j =>
            simp [hid] at hi
            exact hi ▸ randomFile_mem hid
        · rw [hpl, hm3u]
        · rw [hidx, hm3u]
  · intro b
    unfold Pkg.triggerRandom
    cases hr : randomFile dirs.randomFiles rnd.randomChoice <;>
      cases hq : s.m3u <;> simp [hr, hq, rebuildMpvPlaylist]

/-- C8 witness: a successful packaged `trigger_random` with random and
idle files available while the engine plays the second queue item. -/
theorem fireRandom_success_shape_witness :
    (Pkg.triggerRandom ⟨["j"], [], ["r"]⟩ exRand 5 c8Sys).1 = true ∧
    (randomSuccessShape ⟨["j"], [], ["r"]⟩ exRand 5 c8Sys
       (Pkg.triggerRandom ⟨["j"], [], ["r"]⟩ exRand 5 c8Sys).2 ∧
     ∀ b, Pkg.triggerRandom ⟨["j"], [], ["r"]⟩ exRand 5 { c8Sys with inRandomMode := b } =
       ((Pkg.triggerRandom ⟨["j"], [], ["r"]⟩ exRand 5 c8Sys).1,
        { (Pkg.triggerRandom ⟨["j"], [], ["r"]⟩ exRand 5 c8Sys).2 with inRandomMode := b })) :=
  ⟨by decide, fireRandom_success_shape ⟨["j"], [], ["r"]⟩ exRand 5 c8Sys (by decide)⟩

end CueBeam
